import Mathlib

/-!
Verification of the GreenThumb care-scheduling and notification core.

The development shallowly embeds the server logic of `src/server/routes.ts`,
`src/server/storage.ts` and `src/shared/schema.ts`, together with the two
client call sites of the watering classification
(`src/client/src/components/PlantCard.tsx`, `src/client/src/pages/Dashboard.tsx`).

Modelling conventions:
* A JavaScript `Date` is modelled as an `Instant`: a local calendar-day index
  plus milliseconds since that day's local midnight.  JS `<`/`<=` on dates
  compare epoch milliseconds, modelled by `toEpoch`.  A structurally valid
  instant satisfies `wfInstant` (its millisecond field lies inside one day).
* The date strings stored in the `text` columns are modelled as the instants
  they parse to with `new Date(...)`; all call sites parse the same stored
  string, hence receive the same instant.
* The Postgres store is modelled as a `List Plant`; drizzle's
  `update ... where eq(plants.id, id)` updates every row with that id and
  `returning()` yields the updated rows.
* A store-level rejection of a single-row update (for example a dropped
  connection) is modelled by a predicate `rejects : Nat → Bool` on plant ids;
  `Promise.all` over the per-plant updates starts every update before the
  first rejection is observed, so every non-rejected update is applied to the
  store even when the whole call reports failure.
-/

namespace GreenThumb

/-- Milliseconds in one day, the unit of JS epoch arithmetic. -/
def msPerDay : Int := 86400000

/-- A JS `Date`: local calendar-day index and milliseconds since that day's
local midnight. -/
structure Instant where
  day : Int
  ms : Int
deriving DecidableEq, Repr

/-- Epoch milliseconds of an instant; JS date comparison compares this value. -/
def toEpoch (t : Instant) : Int := t.day * msPerDay + t.ms

/-- A structurally valid instant: the millisecond field lies inside one day. -/
def wfInstant (t : Instant) : Prop := 0 ≤ t.ms ∧ t.ms < msPerDay

/-- JS `a < b` on `Date` values. -/
def jsLt (a b : Instant) : Bool := toEpoch a < toEpoch b

/-- JS `a <= b` on `Date` values. -/
def jsLe (a b : Instant) : Bool := toEpoch a ≤ toEpoch b

/-- date-fns `startOfDay`: midnight of the instant's local calendar day. -/
def startOfDay (t : Instant) : Instant := ⟨t.day, 0⟩

/-- date-fns `addDays`: adds calendar days, keeping the local time of day. -/
def addDays (t : Instant) (n : Int) : Instant := ⟨t.day + n, t.ms⟩

/-- date-fns `isToday`: the instant falls on the same local calendar day as
the current time `now`. -/
def isToday (t now : Instant) : Bool := t.day == now.day

/-- date-fns `isBefore`: strict instant comparison. -/
def isBefore (a b : Instant) : Bool := jsLt a b

/-- date-fns `isPast`: the instant is strictly before the current time. -/
def isPast (t now : Instant) : Bool := jsLt t now

/-- JS `d.setDate(d.getDate() - 1)`: the previous calendar day at the same
local time of day (routes.ts lines 216-217). -/
def yesterdayOf (now : Instant) : Instant := ⟨now.day - 1, now.ms⟩

/-- A row of the `plants` table (shared/schema.ts lines 33-49).  Optional
columns are nullable in the database. -/
structure Plant where
  id : Nat
  user_id : String
  name : String
  location : String
  photo_url : String
  water_frequency_days : Int
  last_watered_date : Instant
  fertilize_frequency_days : Option Int := none
  last_fertilized_date : Option Instant := none
  repot_frequency_months : Option Int := none
  last_repotted_date : Option Instant := none
  prune_frequency_months : Option Int := none
  last_pruned_date : Option Instant := none
  notes : String := ""
deriving DecidableEq, Repr

/-- A `Partial<InsertPlant>` request body for PATCH /api/plants/:id. -/
structure PlantPatch where
  name : Option String := none
  location : Option String := none
  photo_url : Option String := none
  water_frequency_days : Option Int := none
  last_watered_date : Option Instant := none
  fertilize_frequency_days : Option (Option Int) := none
  last_fertilized_date : Option (Option Instant) := none
  repot_frequency_months : Option (Option Int) := none
  last_repotted_date : Option (Option Instant) := none
  prune_frequency_months : Option (Option Int) := none
  last_pruned_date : Option (Option Instant) := none
  notes : Option String := none
deriving DecidableEq, Repr

/-- drizzle `update(plants).set(patch)`: fields present in the patch replace
the row's fields. -/
def applyPatch (p : Plant) (patch : PlantPatch) : Plant :=
  { p with
    name := patch.name.getD p.name
    location := patch.location.getD p.location
    photo_url := patch.photo_url.getD p.photo_url
    water_frequency_days := patch.water_frequency_days.getD p.water_frequency_days
    last_watered_date := patch.last_watered_date.getD p.last_watered_date
    fertilize_frequency_days := patch.fertilize_frequency_days.getD p.fertilize_frequency_days
    last_fertilized_date := patch.last_fertilized_date.getD p.last_fertilized_date
    repot_frequency_months := patch.repot_frequency_months.getD p.repot_frequency_months
    last_repotted_date := patch.last_repotted_date.getD p.last_repotted_date
    prune_frequency_months := patch.prune_frequency_months.getD p.prune_frequency_months
    last_pruned_date := patch.last_pruned_date.getD p.last_pruned_date
    notes := patch.notes.getD p.notes }

/-- `DbStorage.updatePlant` (storage.ts lines 94-104): update every row whose
id matches — no owner condition — and return the first updated row. -/
def updatePlant (store : List Plant) (id : Nat) (patch : PlantPatch) :
    List Plant × Option Plant :=
  let updated := store.map (fun p => if p.id == id then applyPatch p patch else p)
  (updated, (updated.filter (fun p => p.id == id)).head?)

/-- `DbStorage.deletePlant` (storage.ts lines 106-108): delete every row whose
id matches — no owner condition. -/
def deletePlant (store : List Plant) (id : Nat) : List Plant :=
  store.filter (fun p => !(p.id == id))

/-- `DbStorage.getPlantsByUserId` (storage.ts lines 87-92). -/
def getPlantsByUserId (store : List Plant) (userId : String) : List Plant :=
  store.filter (fun p => p.user_id == userId)

/-- Response of PATCH /api/plants/:id. -/
inductive PatchResp where
  | authRequired
  | ok (plant : Option Plant)
deriving DecidableEq, Repr

/-- PATCH /api/plants/:id (routes.ts lines 154-161): `requireAuth`, then
`storage.updatePlant(req.params.id, req.body)` — the session user id is never
consulted. -/
def patchPlantRoute (session : Option Int) (store : List Plant) (plantId : Nat)
    (patch : PlantPatch) : PatchResp × List Plant :=
  match session with
  | none => (.authRequired, store)
  | some _ =>
    let (store2, plant) := updatePlant store plantId patch
    (.ok plant, store2)

/-- Response of DELETE /api/plants/:id. -/
inductive DeleteResp where
  | authRequired
  | ok
deriving DecidableEq, Repr

/-- DELETE /api/plants/:id (routes.ts lines 163-170): `requireAuth`, then
`storage.deletePlant(req.params.id)` — the session user id is never
consulted. -/
def deletePlantRoute (session : Option Int) (store : List Plant) (plantId : Nat) :
    DeleteResp × List Plant :=
  match session with
  | none => (.authRequired, store)
  | some _ => (.ok, deletePlant store plantId)

/-- Raw JSON body of POST /api/plants before validation; date strings are
modelled as the instants they parse to. -/
structure AddPlantBody where
  name : Option String := none
  location : Option String := none
  photo_url : Option String := none
  water_frequency_days : Option Int := none
  last_watered_date : Option Instant := none
  fertilize_frequency_days : Option Int := none
  last_fertilized_date : Option Instant := none
  repot_frequency_months : Option Int := none
  last_repotted_date : Option Instant := none
  prune_frequency_months : Option Int := none
  last_pruned_date : Option Instant := none
  notes : Option String := none
deriving DecidableEq, Repr

/-- A payload accepted by `insertPlantSchema`. -/
structure InsertPlant where
  name : String
  location : String
  photo_url : String
  water_frequency_days : Int
  last_watered_date : Instant
  fertilize_frequency_days : Option Int
  last_fertilized_date : Option Instant
  repot_frequency_months : Option Int
  last_repotted_date : Option Instant
  prune_frequency_months : Option Int
  last_pruned_date : Option Instant
  notes : String
deriving DecidableEq, Repr

/-- `insertPlantSchema.parse` (shared/schema.ts lines 54-65): the five
non-omitted not-null columns are required, `notes` defaults to `""`, the
remaining track fields are optional.  The generated number schema carries no
lower bound, so any integer watering frequency passes. -/
def parseInsertPlant (b : AddPlantBody) : Except String InsertPlant :=
  match b.name, b.location, b.photo_url, b.water_frequency_days, b.last_watered_date with
  | some name, some location, some photo, some freq, some lastWatered =>
    .ok
      { name := name
        location := location
        photo_url := photo
        water_frequency_days := freq
        last_watered_date := lastWatered
        fertilize_frequency_days := b.fertilize_frequency_days
        last_fertilized_date := b.last_fertilized_date
        repot_frequency_months := b.repot_frequency_months
        last_repotted_date := b.last_repotted_date
        prune_frequency_months := b.prune_frequency_months
        last_pruned_date := b.last_pruned_date
        notes := b.notes.getD "" }
  | _, _, _, _, _ => .error "Required"

/-- Response of POST /api/plants. -/
inductive AddResp where
  | authRequired
  | created (plant : Plant)
  | validationFailed (msg : String)
deriving DecidableEq, Repr

/-- POST /api/plants (routes.ts lines 131-142): `requireAuth`, parse the body,
attach `user_id: String(userId)`, insert.  `newId` stands for the
database-generated uuid. -/
def addPlantRoute (session : Option Int) (newId : Nat) (store : List Plant)
    (b : AddPlantBody) : AddResp × List Plant :=
  match session with
  | none => (.authRequired, store)
  | some uid =>
    match parseInsertPlant b with
    | .error msg => (.validationFailed msg, store)
    | .ok d =>
      let plant : Plant :=
        { id := newId
          user_id := toString uid
          name := d.name
          location := d.location
          photo_url := d.photo_url
          water_frequency_days := d.water_frequency_days
          last_watered_date := d.last_watered_date
          fertilize_frequency_days := d.fertilize_frequency_days
          last_fertilized_date := d.last_fertilized_date
          repot_frequency_months := d.repot_frequency_months
          last_repotted_date := d.last_repotted_date
          prune_frequency_months := d.prune_frequency_months
          last_pruned_date := d.last_pruned_date
          notes := d.notes }
      (.created plant, store ++ [plant])

/-- Response of the bulk routes.  On any rejected per-plant update
`Promise.all` rejects and the handler answers 400 with the error message
(whose content comes from the collaborator and is immaterial here); only a
fully successful batch answers `{ success: true, count }`. -/
inductive BulkResp where
  | authRequired
  | success (count : Nat)
  | failure
deriving DecidableEq, Repr

/-- The bulk selection predicate of water-all and postpone-all
(routes.ts lines 180-184 and 209-213): the plant needs watering when
`addDays(startOfDay(last_watered_date), water_frequency_days) <= startOfDay(now)`. -/
def dueForBulk (now : Instant) (plant : Plant) : Bool :=
  let today := startOfDay now
  let lastWatered := startOfDay plant.last_watered_date
  let nextWateringDate := addDays lastWatered plant.water_frequency_days
  jsLe nextWateringDate today

/-- `plantsNeedingWater` of the bulk routes: the current user's plants that
are overdue or due today. -/
def plantsNeedingWater (store : List Plant) (userId : String) (now : Instant) :
    List Plant :=
  (getPlantsByUserId store userId).filter (dueForBulk now)

/-- Effect of the bulk update loop: every row whose id belongs to a selected,
non-rejected plant is updated with `setLast`; `Promise.all` has already issued
every update when the first rejection surfaces, so rejected plants do not stop
the others. -/
def bulkApply (store : List Plant) (selected : List Plant) (rejects : Nat → Bool)
    (setLast : Instant) : List Plant :=
  let ids := (selected.filter (fun p => !(rejects p.id))).map (fun p => p.id)
  store.map (fun p =>
    if ids.contains p.id then { p with last_watered_date := setLast } else p)

/-- POST /api/plants/water-all (routes.ts lines 173-200): select the user's
due plants, set each one's `last_watered_date` to the current time, and
report `count: plantsNeedingWater.length` — unless some update rejected, in
which case the catch block answers 400. -/
def waterAllRoute (session : Option Int) (rejects : Nat → Bool)
    (store : List Plant) (now : Instant) : BulkResp × List Plant :=
  match session with
  | none => (.authRequired, store)
  | some uid =>
    let need := plantsNeedingWater store (toString uid) now
    let store2 := bulkApply store need rejects now
    if need.any (fun p => rejects p.id) then (.failure, store2)
    else (.success need.length, store2)

/-- POST /api/plants/postpone-all (routes.ts lines 202-232): same selection as
water-all, but each selected plant's `last_watered_date` is set to yesterday. -/
def postponeAllRoute (session : Option Int) (rejects : Nat → Bool)
    (store : List Plant) (now : Instant) : BulkResp × List Plant :=
  match session with
  | none => (.authRequired, store)
  | some uid =>
    let need := plantsNeedingWater store (toString uid) now
    let store2 := bulkApply store need rejects (yesterdayOf now)
    if need.any (fun p => rejects p.id) then (.failure, store2)
    else (.success need.length, store2)

/-- A row of the `push_subscriptions` table (shared/schema.ts lines 75-82). -/
structure PushSub where
  user_id : Int
  endpoint : String
  p256dh : String
  auth : String
deriving DecidableEq, Repr

/-- Outcome of one `webpush.sendNotification` call: resolution, or rejection
carrying the channel's status code (410 marks a permanently gone endpoint). -/
inductive SendResult where
  | ok
  | err (statusCode : Int)
deriving DecidableEq, Repr

/-- Watering check of the sweep (routes.ts lines 345-350): the raw parsed
`last_watered_date` plus the frequency, due when that lands today or strictly
before today's midnight. -/
def waterDue (now : Instant) (p : Plant) : Bool :=
  let today := startOfDay now
  let lastWatered := p.last_watered_date
  let nextWaterDate := addDays lastWatered p.water_frequency_days
  isToday nextWaterDate now || isBefore nextWaterDate today

/-- Fertilizing check of the sweep (routes.ts lines 352-359): guarded by JS
truthiness of both `fertilize_frequency_days` and `last_fertilized_date`
(a zero frequency is falsy). -/
def fertilizeDue (now : Instant) (p : Plant) : Bool :=
  match p.fertilize_frequency_days, p.last_fertilized_date with
  | some freq, some lastFertilized =>
    freq != 0 &&
      (let nextFertilizeDate := addDays lastFertilized freq
       isToday nextFertilizeDate now || isBefore nextFertilizeDate (startOfDay now))
  | _, _ => false

/-- Repotting check of the sweep (routes.ts lines 361-369): month addition is
delegated to the calendar collaborator `addMonths` (JS `setMonth`); the
overdue comparison wraps the candidate date in `startOfDay`. -/
def repotDue (addMonths : Instant → Int → Instant) (now : Instant) (p : Plant) :
    Bool :=
  match p.repot_frequency_months, p.last_repotted_date with
  | some freq, some lastRepotted =>
    freq != 0 &&
      (let nextRepotDate := addMonths lastRepotted freq
       isToday nextRepotDate now || isBefore (startOfDay nextRepotDate) (startOfDay now))
  | _, _ => false

/-- Pruning check of the sweep (routes.ts lines 371-379), same shape as the
repotting check. -/
def pruneDue (addMonths : Instant → Int → Instant) (now : Instant) (p : Plant) :
    Bool :=
  match p.prune_frequency_months, p.last_pruned_date with
  | some freq, some lastPruned =>
    freq != 0 &&
      (let nextPruneDate := addMonths lastPruned freq
       isToday nextPruneDate now || isBefore (startOfDay nextPruneDate) (startOfDay now))
  | _, _ => false

/-- The per-user name groups accumulated by the sweep (routes.ts lines
337-342). -/
structure CareNeeded where
  water : List String
  fertilize : List String
  repot : List String
  prune : List String
deriving DecidableEq, Repr

/-- The sweep's single pass over a user's plants (routes.ts lines 344-380),
expressed group-by-group: each group collects, in plant order, the names of
the plants whose track fired. -/
def careNeededFor (addMonths : Instant → Int → Instant) (now : Instant)
    (plants : List Plant) : CareNeeded :=
  { water := (plants.filter (waterDue now)).map (fun p => p.name)
    fertilize := (plants.filter (fertilizeDue now)).map (fun p => p.name)
    repot := (plants.filter (repotDue addMonths now)).map (fun p => p.name)
    prune := (plants.filter (pruneDue addMonths now)).map (fun p => p.name) }

/-- Message assembly (routes.ts lines 383-404): one segment per non-empty
group, `"<Verb>: <name>"` for a single plant and `"<Verb> <N> plants"`
otherwise, in the fixed order water, fertilize, repot, prune. -/
def buildMessages (c : CareNeeded) : List String :=
  (if c.water.length > 0 then
    [if c.water.length == 1 then "Water: " ++ c.water.headD ""
     else "Water " ++ toString c.water.length ++ " plants"]
   else []) ++
  (if c.fertilize.length > 0 then
    [if c.fertilize.length == 1 then "Fertilize: " ++ c.fertilize.headD ""
     else "Fertilize " ++ toString c.fertilize.length ++ " plants"]
   else []) ++
  (if c.repot.length > 0 then
    [if c.repot.length == 1 then "Repot: " ++ c.repot.headD ""
     else "Repot " ++ toString c.repot.length ++ " plants"]
   else []) ++
  (if c.prune.length > 0 then
    [if c.prune.length == 1 then "Prune: " ++ c.prune.headD ""
     else "Prune " ++ toString c.prune.length ++ " plants"]
   else [])

/-- `plants.filter(p => p.user_id === String(subscription.user_id))`
(routes.ts line 335). -/
def userPlantsFor (plants : List Plant) (sub : PushSub) : List Plant :=
  plants.filter (fun p => p.user_id == toString sub.user_id)

/-- The push body composed for one subscription (routes.ts lines 406-415):
`messages.join(" | ")` when some group is non-empty, nothing otherwise. -/
def bodyFor (addMonths : Instant → Int → Instant) (plants : List Plant)
    (now : Instant) (sub : PushSub) : Option String :=
  let messages := buildMessages (careNeededFor addMonths now (userPlantsFor plants sub))
  if messages.length > 0 then some (String.intercalate " | " messages) else none

/-- Accumulator of the sweep loop: delivery log, send attempts
`(user_id, body)`, and user ids whose subscription was deleted. -/
structure SweepState where
  sent : List String
  attempts : List (Int × String)
  deleted : List Int
deriving DecidableEq, Repr

/-- Body of the sweep loop for one subscription (routes.ts lines 333-431):
compose the body, skip the user when it is empty, otherwise send once; a
resolved send is recorded, a rejected send with status 410 deletes the
subscription, any other rejection is only logged.  The per-subscription
try/catch keeps the loop going in every case. -/
def processSub (addMonths : Instant → Int → Instant)
    (send : PushSub → String → SendResult) (plants : List Plant) (now : Instant)
    (st : SweepState) (sub : PushSub) : SweepState :=
  match bodyFor addMonths plants now sub with
  | none => st
  | some body =>
    let st2 := { st with attempts := st.attempts ++ [(sub.user_id, body)] }
    match send sub body with
    | .ok =>
      { st2 with
        sent := st2.sent ++ ["User " ++ toString sub.user_id ++ ": " ++ body] }
    | .err code =>
      if code == 410 then { st2 with deleted := st2.deleted ++ [sub.user_id] }
      else st2

/-- Result of POST /api/push/check-plants: the `notificationsSent` report, the
send attempts, and the subscription table after the sweep's deletions. -/
structure SweepOutcome where
  sent : List String
  attempts : List (Int × String)
  subsAfter : List PushSub
deriving DecidableEq, Repr

/-- POST /api/push/check-plants (routes.ts lines 317-438): iterate over the
snapshot of subscriptions; `deletePushSubscription` removes every row of the
deleted user from the table the next sweep will read. -/
def checkPlants (addMonths : Instant → Int → Instant)
    (send : PushSub → String → SendResult) (plants : List Plant)
    (subs : List PushSub) (now : Instant) : SweepOutcome :=
  let final := subs.foldl (processSub addMonths send plants now) ⟨[], [], []⟩
  { sent := final.sent
    attempts := final.attempts
    subsAfter := subs.filter (fun s => !(final.deleted.contains s.user_id)) }

/-- PlantCard's overdue test (PlantCard.tsx lines 107-111): both the stored
date and now are normalised with `startOfDay` before comparing. -/
def cardIsOverdue (p : Plant) (now : Instant) : Bool :=
  let lastWateredDate := startOfDay p.last_watered_date
  let nextWateringDate := addDays lastWateredDate p.water_frequency_days
  let today := startOfDay now
  jsLt nextWateringDate today

/-- PlantCard's due-today test (PlantCard.tsx line 112):
`nextWateringDate.getTime() === today.getTime()`. -/
def cardIsDueToday (p : Plant) (now : Instant) : Bool :=
  let lastWateredDate := startOfDay p.last_watered_date
  let nextWateringDate := addDays lastWateredDate p.water_frequency_days
  let today := startOfDay now
  toEpoch nextWateringDate == toEpoch today

/-- PlantCard's `needsWater` flag (PlantCard.tsx line 113). -/
def cardNeedsWater (p : Plant) (now : Instant) : Bool :=
  cardIsOverdue p now || cardIsDueToday p now

/-- The ternary watering state, named after the spec's Care Clock. -/
inductive WaterStatus where
  | overdue
  | dueToday
  | upcoming
deriving DecidableEq, Repr

/-- PlantCard's `getWateringStatus` branch order (PlantCard.tsx lines
115-131): overdue first, then due today, else upcoming. -/
def cardStatus (p : Plant) (now : Instant) : WaterStatus :=
  if cardIsOverdue p now then .overdue
  else if cardIsDueToday p now then .dueToday
  else .upcoming

/-- Dashboard's `needsWater` filter (Dashboard.tsx lines 76-79): the raw
parsed date plus the frequency, tested with `isPast || isToday`. -/
def dashNeedsWater (p : Plant) (now : Instant) : Bool :=
  let nextWateringDate := addDays p.last_watered_date p.water_frequency_days
  isPast nextWateringDate now || isToday nextWateringDate now

/-- Dashboard's `allGood` filter (Dashboard.tsx lines 81-84). -/
def dashAllGood (p : Plant) (now : Instant) : Bool :=
  let nextWateringDate := addDays p.last_watered_date p.water_frequency_days
  !(isPast nextWateringDate now) && !(isToday nextWateringDate now)

/-- The watering due day under the uniform start-of-day normalisation: the
calendar day of the stored date plus the frequency. -/
def specNextDueDay (p : Plant) : Int :=
  p.last_watered_date.day + p.water_frequency_days

/-- Modelled from the spec: Care Clock `classify(dueDate, today)` at day
granularity — OVERDUE when dueDate < today, DUE_TODAY when equal, UPCOMING
otherwise (spec section 4.1). -/
def classifySpec (dueDay todayDay : Int) : WaterStatus :=
  if dueDay < todayDay then .overdue
  else if dueDay = todayDay then .dueToday
  else .upcoming

/-- Modelled from the spec: one message segment per non-empty group,
`"<Verb>: <single plant name>"` for a singleton group and
`"<Verb> <N> plants"` for a larger one (spec section 4.3 step 5). -/
def specSegment (verb : String) (group : List String) : Option String :=
  match group with
  | [] => none
  | [single] => some (verb ++ ": " ++ single)
  | _ => some (verb ++ " " ++ toString group.length ++ " plants")

/-- Modelled from the spec: the composed per-user body — the non-empty
groups' segments joined with the fixed separator, or nothing when all four
groups are empty (spec section 4.3 step 5). -/
def specComposeBody (c : CareNeeded) : Option String :=
  match [specSegment "Water" c.water, specSegment "Fertilize" c.fertilize,
         specSegment "Repot" c.repot, specSegment "Prune" c.prune].filterMap id with
  | [] => none
  | parts => some (String.intercalate " | " parts)

/-- Modelled from the spec: the body for one subscription, composed from that
user's groups. -/
def specBodyOf (addMonths : Instant → Int → Instant) (plants : List Plant)
    (now : Instant) (sub : PushSub) : Option String :=
  specComposeBody (careNeededFor addMonths now (userPlantsFor plants sub))

/-- Modelled from the spec: the canonical ordered composition of claim C10 —
the groups are laid out in the fixed order water, fertilize, repot, prune and
the surviving segments are joined with the separator `" | "`. -/
def specOrderedBody (c : CareNeeded) : Option String :=
  let orderedSegments :=
    [("Water", c.water), ("Fertilize", c.fertilize),
     ("Repot", c.repot), ("Prune", c.prune)].filterMap
      (fun vg => specSegment vg.1 vg.2)
  if orderedSegments.isEmpty then none
  else some (String.intercalate " | " orderedSegments)

/-- Two booleans agreeing as propositions are equal. -/
theorem bool_eq_of_iff {a b : Bool} (h : a = true ↔ b = true) : a = b := by
  cases a <;> cases b <;> simp_all

/-- A plant owned by user 2, used to exercise the plant routes. -/
def bobPlant : Plant :=
  { id := 7
    user_id := "2"
    name := "Monstera"
    location := "Kitchen"
    photo_url := "monstera.jpg"
    water_frequency_days := 7
    last_watered_date := ⟨19700, 0⟩ }

/-- Claim C1: the spec requires update/delete on a non-owned plant id to fail
or be unreachable with the plant unchanged.  The code violates this: with an
authenticated session for user 1, PATCH and DELETE on plant 7 owned by user 2
succeed and mutate or remove user 2's record, because neither the route
handlers (routes.ts lines 154-170) nor the storage layer (storage.ts lines
94-108) consult the owner. -/
theorem update_delete_not_owner_scoped :
    patchPlantRoute (some 1) [bobPlant] 7 { name := some "hacked" }
      = (.ok (some { bobPlant with name := "hacked" }),
         [{ bobPlant with name := "hacked" }])
    ∧ deletePlantRoute (some 1) [bobPlant] 7 = (.ok, []) :=
  ⟨rfl, rfl⟩

/-- An add-plant body that is complete except that the watering frequency is
zero. -/
def freqZeroBody : AddPlantBody :=
  { name := some "Cactus"
    location := some "Desk"
    photo_url := some "cactus.jpg"
    water_frequency_days := some 0
    last_watered_date := some ⟨19700, 0⟩ }

/-- The plant the route creates from `freqZeroBody` for user 1 under id 42. -/
def freqZeroPlant : Plant :=
  { id := 42
    user_id := "1"
    name := "Cactus"
    location := "Desk"
    photo_url := "cactus.jpg"
    water_frequency_days := 0
    last_watered_date := ⟨19700, 0⟩ }

/-- Claim C3: the spec requires add-plant to reject a watering frequency < 1.
The code rejects missing required fields (last two conjuncts) but accepts a
zero frequency and creates the plant (first two conjuncts):
`insertPlantSchema` (shared/schema.ts lines 54-65) puts no lower bound on
`water_frequency_days`, although the repository's own README declares the
column with `CHECK (water_frequency_days > 0)`. -/
theorem addPlant_accepts_nonpositive_frequency :
    (addPlantRoute (some 1) 42 [] freqZeroBody).1 = .created freqZeroPlant
    ∧ (addPlantRoute (some 1) 42 [] freqZeroBody).2 = [freqZeroPlant]
    ∧ (addPlantRoute (some 1) 42 [] { freqZeroBody with name := none }).1
        = .validationFailed "Required"
    ∧ (addPlantRoute (some 1) 42 [] { freqZeroBody with name := none }).2 = [] :=
  ⟨rfl, rfl, rfl, rfl⟩

/-- Claim C4: the watering classification is the ternary, exhaustive
day-granularity rule `classifySpec` under the uniform start-of-day
normalisation, and all three call sites agree on it: PlantCard's ternary
status equals `classifySpec` of the normalised due day, PlantCard's binary
needs-water flag holds exactly off the UPCOMING state, and the Dashboard
partition filters and the sweep's watering check coincide with it (the
Dashboard pair being an exhaustive complement). -/
theorem watering_classification_consistent (p : Plant) (now : Instant)
    (hlast : wfInstant p.last_watered_date) (hnow : wfInstant now) :
    cardStatus p now = classifySpec (specNextDueDay p) now.day
    ∧ (cardNeedsWater p now = true ↔
        classifySpec (specNextDueDay p) now.day ≠ .upcoming)
    ∧ dashNeedsWater p now = cardNeedsWater p now
    ∧ dashAllGood p now = !(dashNeedsWater p now)
    ∧ waterDue now p = cardNeedsWater p now := by
  obtain ⟨hl0, hl1⟩ := hlast
  obtain ⟨hn0, hn1⟩ := hnow
  have hD : msPerDay = 86400000 := rfl
  rw [hD] at hl1 hn1
  refine ⟨?_, ?_, ?_, ?_, ?_⟩
  · simp only [cardStatus, cardIsOverdue, cardIsDueToday, classifySpec,
      specNextDueDay, startOfDay, addDays, jsLt, toEpoch, msPerDay,
      decide_eq_true_eq, beq_iff_eq]
    split_ifs <;> first | rfl | omega
  · simp only [cardNeedsWater, cardIsOverdue, cardIsDueToday, classifySpec,
      specNextDueDay, startOfDay, addDays, jsLt, toEpoch, msPerDay,
      Bool.or_eq_true, decide_eq_true_eq, beq_iff_eq]
    split_ifs <;> simp <;> omega
  · apply bool_eq_of_iff
    simp only [dashNeedsWater, cardNeedsWater, cardIsOverdue, cardIsDueToday,
      isPast, isToday, startOfDay, addDays, jsLt, toEpoch, msPerDay,
      Bool.or_eq_true, decide_eq_true_eq, beq_iff_eq]
    omega
  · simp only [dashAllGood, dashNeedsWater, Bool.not_or]
  · apply bool_eq_of_iff
    simp only [waterDue, cardNeedsWater, cardIsOverdue, cardIsDueToday,
      isToday, isBefore, startOfDay, addDays, jsLt, toEpoch, msPerDay,
      Bool.or_eq_true, decide_eq_true_eq, beq_iff_eq]
    omega

/-- A plant due today for the classification witness. -/
def camPlant : Plant :=
  { id := 1
    user_id := "1"
    name := "Fern"
    location := "Bath"
    photo_url := "fern.jpg"
    water_frequency_days := 7
    last_watered_date := ⟨100, 3600000⟩ }

/-- The current time of the classification witness. -/
def camNow : Instant := ⟨107, 50000⟩

/-- Concrete instantiation of `watering_classification_consistent`. -/
theorem watering_classification_consistent_witness :
    (wfInstant camPlant.last_watered_date ∧ wfInstant camNow)
    ∧ (cardStatus camPlant camNow
          = classifySpec (specNextDueDay camPlant) camNow.day
        ∧ (cardNeedsWater camPlant camNow = true ↔
            classifySpec (specNextDueDay camPlant) camNow.day ≠ .upcoming)
        ∧ dashNeedsWater camPlant camNow = cardNeedsWater camPlant camNow
        ∧ dashAllGood camPlant camNow = !(dashNeedsWater camPlant camNow)
        ∧ waterDue camNow camPlant = cardNeedsWater camPlant camNow) :=
  ⟨⟨by constructor <;> decide, by constructor <;> decide⟩,
    watering_classification_consistent camPlant camNow
      ⟨by decide, by decide⟩ ⟨by decide, by decide⟩⟩

/-- Any-of-false is false. -/
theorem any_false (l : List Plant) : (l.any fun _ => false) = false := by
  induction l <;> simp_all

/-- Filtering with a constantly-true test keeps the list. -/
theorem filter_not_false (l : List Plant) :
    (l.filter fun p => !((fun _ : Nat => false) p.id)) = l := by
  induction l <;> simp_all

/-- After water-all has run with no store rejection, no plant of that user
still needs watering the same day. -/
theorem plantsNeedingWater_after_waterAll (store : List Plant) (uid : Int)
    (now : Instant) (hfreq : ∀ p ∈ store, 1 ≤ p.water_frequency_days) :
    plantsNeedingWater
      (bulkApply store (plantsNeedingWater store (toString uid) now)
        (fun _ => false) now)
      (toString uid) now = [] := by
  rw [plantsNeedingWater, getPlantsByUserId, List.filter_filter,
    List.filter_eq_nil_iff]
  intro q hq
  simp only [bulkApply, filter_not_false, List.mem_map] at hq
  obtain ⟨p, hp, rfl⟩ := hq
  by_cases hc :
      ((plantsNeedingWater store (toString uid) now).map (fun p => p.id)).contains p.id
  · simp only [hc, if_pos]
    have hf := hfreq p hp
    simp only [dueForBulk, startOfDay, addDays, jsLe, toEpoch, msPerDay,
      Bool.and_eq_true, decide_eq_true_eq, beq_iff_eq, not_and]
    intro _
    omega
  · have hc' :
        ((plantsNeedingWater store (toString uid) now).map (fun p => p.id)).contains p.id
          = false := by
      simpa using hc
    simp only [hc', Bool.false_eq_true, if_false, Bool.and_eq_true, beq_iff_eq,
      not_and]
    intro hdue huser
    have hpneed : p ∈ plantsNeedingWater store (toString uid) now := by
      simp only [plantsNeedingWater, getPlantsByUserId, List.mem_filter]
      exact ⟨⟨hp, by simp [huser]⟩, hdue⟩
    exact absurd
      (List.mem_map_of_mem (fun q : Plant => q.id) hpneed)
      (by simpa [List.elem_iff] using hc)

/-- Claim C5: when every plant's watering frequency is at least 1, a second
water-all call on the same day with no interleaved mutation and no store
rejection updates zero plants. -/
theorem waterAllDue_idempotent (store : List Plant) (uid : Int) (now : Instant)
    (hfreq : ∀ p ∈ store, 1 ≤ p.water_frequency_days) :
    (waterAllRoute (some uid) (fun _ => false)
        ((waterAllRoute (some uid) (fun _ => false) store now).2) now).1
      = BulkResp.success 0 := by
  have key := plantsNeedingWater_after_waterAll store uid now hfreq
  simp only [waterAllRoute, any_false, Bool.false_eq_true, if_neg,
    not_false_iff, key, List.length_nil]

/-- The instant used by the idempotence witness. -/
def idemNow : Instant := ⟨19710, 1000⟩

/-- Concrete instantiation of `waterAllDue_idempotent`: one plant, overdue,
watered by the first call, untouched by the second. -/
theorem waterAllDue_idempotent_witness :
    (∀ p ∈ [bobPlant], 1 ≤ p.water_frequency_days)
    ∧ (waterAllRoute (some 2) (fun _ => false)
          ((waterAllRoute (some 2) (fun _ => false) [bobPlant] idemNow).2)
          idemNow).1
        = BulkResp.success 0 :=
  ⟨by decide, waterAllDue_idempotent [bobPlant] 2 idemNow (by decide)⟩

/-- Both branches of water-all leave the same store. -/
theorem waterAllRoute_snd (uid : Int) (rejects : Nat → Bool)
    (store : List Plant) (now : Instant) :
    (waterAllRoute (some uid) rejects store now).2
      = bulkApply store (plantsNeedingWater store (toString uid) now) rejects now := by
  simp only [waterAllRoute]
  split <;> rfl

/-- Both branches of postpone-all leave the same store. -/
theorem postponeAllRoute_snd (uid : Int) (rejects : Nat → Bool)
    (store : List Plant) (now : Instant) :
    (postponeAllRoute (some uid) rejects store now).2
      = bulkApply store (plantsNeedingWater store (toString uid) now) rejects
          (yesterdayOf now) := by
  simp only [postponeAllRoute]
  split <;> rfl

/-- A stored plant of the right user that is due belongs to the bulk
selection. -/
theorem mem_plantsNeedingWater (store : List Plant) (userId : String)
    (now : Instant) (p : Plant) (hp : p ∈ store) (huser : p.user_id = userId)
    (hdue : dueForBulk now p = true) :
    p ∈ plantsNeedingWater store userId now := by
  simp only [plantsNeedingWater, getPlantsByUserId, List.mem_filter]
  exact ⟨⟨hp, by simp [huser]⟩, hdue⟩

/-- A selected plant whose update the store does not reject ends up updated in
the bulk result, whatever happens to the other plants. -/
theorem mem_bulkApply_updated (store selected : List Plant)
    (rejects : Nat → Bool) (setLast : Instant) (p : Plant) (hp : p ∈ store)
    (hsel : p ∈ selected) (hrej : rejects p.id = false) :
    { p with last_watered_date := setLast }
      ∈ bulkApply store selected rejects setLast := by
  have hcon :
      ((selected.filter (fun q => !(rejects q.id))).map (fun q => q.id)).contains p.id
        = true := by
    simp only [List.elem_iff, List.mem_map, List.mem_filter]
    exact ⟨p, ⟨hsel, by simp [hrej]⟩, rfl⟩
  simp only [bulkApply, List.mem_map]
  exact ⟨p, hp, by rw [if_pos hcon]⟩

/-- Claim C2, amended: a rejected per-plant update does not stop the other
updates — every selected, non-rejected plant is updated in the final store of
both bulk routes (first part) — but the response only carries a success count
when every update succeeded, in which case it equals the candidate count
(third part); any rejection makes the whole call answer an error with no
count (second part). -/
theorem bulk_partial_failure_amended :
    (∀ (store : List Plant) (uid : Int) (rejects : Nat → Bool) (now : Instant)
        (p : Plant), p ∈ store → rejects p.id = false →
        p.user_id = toString uid → dueForBulk now p = true →
        ({ p with last_watered_date := now }
            ∈ (waterAllRoute (some uid) rejects store now).2
          ∧ { p with last_watered_date := yesterdayOf now }
            ∈ (postponeAllRoute (some uid) rejects store now).2))
    ∧ (∀ (store : List Plant) (uid : Int) (rejects : Nat → Bool) (now : Instant),
        ((plantsNeedingWater store (toString uid) now).any
            (fun p => rejects p.id)) = true →
        (waterAllRoute (some uid) rejects store now).1 = BulkResp.failure
        ∧ (postponeAllRoute (some uid) rejects store now).1 = BulkResp.failure)
    ∧ (∀ (store : List Plant) (uid : Int) (rejects : Nat → Bool) (now : Instant),
        ((plantsNeedingWater store (toString uid) now).any
            (fun p => rejects p.id)) = false →
        (waterAllRoute (some uid) rejects store now).1
            = BulkResp.success (plantsNeedingWater store (toString uid) now).length
        ∧ (postponeAllRoute (some uid) rejects store now).1
            = BulkResp.success (plantsNeedingWater store (toString uid) now).length) := by
  refine ⟨?_, ?_, ?_⟩
  · intro store uid rejects now p hp hrej huser hdue
    have hsel := mem_plantsNeedingWater store (toString uid) now p hp huser hdue
    constructor
    · rw [waterAllRoute_snd]
      exact mem_bulkApply_updated store _ rejects now p hp hsel hrej
    · rw [postponeAllRoute_snd]
      exact mem_bulkApply_updated store _ rejects (yesterdayOf now) p hp hsel hrej
  · intro store uid rejects now h
    constructor <;> simp only [waterAllRoute, postponeAllRoute, h, if_pos]
  · intro store uid rejects now h
    constructor <;>
      simp only [waterAllRoute, postponeAllRoute, h, Bool.false_eq_true,
        if_false]

/-- First counterexample plant: due, and its update is rejected. -/
def cexPlantA : Plant :=
  { id := 1
    user_id := "1"
    name := "Aloe"
    location := "Sill"
    photo_url := "aloe.jpg"
    water_frequency_days := 7
    last_watered_date := ⟨19700, 0⟩ }

/-- Second counterexample plant: due, and its update succeeds. -/
def cexPlantB : Plant :=
  { id := 2
    user_id := "1"
    name := "Basil"
    location := "Sill"
    photo_url := "basil.jpg"
    water_frequency_days := 7
    last_watered_date := ⟨19700, 0⟩ }

/-- A store that rejects exactly the update of plant 1. -/
def cexRejects : Nat → Bool := fun i => i == 1

/-- The instant of the bulk counterexamples. -/
def cexNow : Instant := ⟨19710, 1000⟩

/-- Claim C2, counterexample: both plants are candidates, plant 1's update is
rejected and plant 2's succeeds, yet water-all answers the catch-block error
— not the count 1 of successful updates the claim promises — even though
plant 2's update did proceed; postpone-all behaves the same. -/
theorem bulk_failure_returns_no_count :
    (waterAllRoute (some 1) cexRejects [cexPlantA, cexPlantB] cexNow).1
        = BulkResp.failure
    ∧ (waterAllRoute (some 1) cexRejects [cexPlantA, cexPlantB] cexNow).2
        = [cexPlantA, { cexPlantB with last_watered_date := cexNow }]
    ∧ (postponeAllRoute (some 1) cexRejects [cexPlantA, cexPlantB] cexNow).1
        = BulkResp.failure :=
  ⟨rfl, rfl, rfl⟩

/-- Concrete instantiation of `bulk_partial_failure_amended`. -/
theorem bulk_partial_failure_amended_witness :
    (cexPlantB ∈ [cexPlantA, cexPlantB] ∧ cexRejects cexPlantB.id = false
      ∧ cexPlantB.user_id = toString (1 : Int)
      ∧ dueForBulk cexNow cexPlantB = true
      ∧ ((plantsNeedingWater [cexPlantA, cexPlantB] (toString (1 : Int)) cexNow).any
          (fun p => cexRejects p.id)) = true)
    ∧ ({ cexPlantB with last_watered_date := cexNow }
          ∈ (waterAllRoute (some 1) cexRejects [cexPlantA, cexPlantB] cexNow).2
        ∧ { cexPlantB with last_watered_date := yesterdayOf cexNow }
          ∈ (postponeAllRoute (some 1) cexRejects [cexPlantA, cexPlantB] cexNow).2)
    ∧ ((waterAllRoute (some 1) cexRejects [cexPlantA, cexPlantB] cexNow).1
          = BulkResp.failure
        ∧ (postponeAllRoute (some 1) cexRejects [cexPlantA, cexPlantB] cexNow).1
          = BulkResp.failure) :=
  ⟨⟨by decide, by decide, by decide, by decide, by decide⟩,
    bulk_partial_failure_amended.1 [cexPlantA, cexPlantB] 1 cexRejects cexNow
      cexPlantB (by decide) (by decide) (by decide) (by decide),
    bulk_partial_failure_amended.2.1 [cexPlantA, cexPlantB] 1 cexRejects cexNow
      (by decide)⟩

/-- Claim C6, amended: postpone-all sets every selected plant's
`last_watered_date` to one day before today regardless of how overdue it was,
so its next due day becomes (today − 1) + its watering frequency —
equal-frequency plants land in identical state, and that state is "due
tomorrow" exactly when the frequency is 2. -/
theorem postponeAllDue_lands_on_yesterday (store : List Plant) (uid : Int)
    (now : Instant) (p : Plant) (hp : p ∈ store)
    (huser : p.user_id = toString uid) (hdue : dueForBulk now p = true) :
    { p with last_watered_date := yesterdayOf now }
        ∈ (postponeAllRoute (some uid) (fun _ => false) store now).2
    ∧ (startOfDay (yesterdayOf now)).day = (startOfDay now).day - 1
    ∧ specNextDueDay { p with last_watered_date := yesterdayOf now }
        = ((startOfDay now).day - 1) + p.water_frequency_days
    ∧ ((classifySpec
          (specNextDueDay { p with last_watered_date := yesterdayOf now })
          now.day = .upcoming
        ∧ specNextDueDay { p with last_watered_date := yesterdayOf now }
          = now.day + 1)
      ↔ p.water_frequency_days = 2) := by
  refine ⟨?_, rfl, rfl, ?_⟩
  · rw [postponeAllRoute_snd]
    exact mem_bulkApply_updated store _ _ (yesterdayOf now) p hp
      (mem_plantsNeedingWater store (toString uid) now p hp huser hdue) rfl
  · constructor
    · rintro ⟨-, h⟩
      simp only [specNextDueDay, yesterdayOf] at h
      omega
    · intro h
      simp only [specNextDueDay, yesterdayOf, classifySpec, h]
      constructor
      · rw [if_neg (by omega), if_neg (by omega)]
      · omega

/-- A daily-watered plant, due today, for the postpone counterexample. -/
def cexFern : Plant :=
  { id := 3
    user_id := "1"
    name := "Fern"
    location := "Bath"
    photo_url := "fern.jpg"
    water_frequency_days := 1
    last_watered_date := ⟨19709, 500⟩ }

/-- A plant watered every 3 days, overdue, for the postpone counterexample. -/
def cexIvy : Plant :=
  { id := 4
    user_id := "1"
    name := "Ivy"
    location := "Shelf"
    photo_url := "ivy.jpg"
    water_frequency_days := 3
    last_watered_date := ⟨19705, 0⟩ }

/-- Claim C6, counterexample: both plants are selected and postponed, yet
after the call the daily-watered plant is still DUE_TODAY (due day 19710 =
today, not tomorrow) and the 3-day plant is due in two days (19712), so the
postponed plants are neither in a due-tomorrow state nor in the same state. -/
theorem postpone_not_same_due_tomorrow :
    (postponeAllRoute (some 1) (fun _ => false) [cexFern, cexIvy] cexNow).1
        = BulkResp.success 2
    ∧ ((postponeAllRoute (some 1) (fun _ => false) [cexFern, cexIvy] cexNow).2.map
          (fun q => specNextDueDay q)) = [19710, 19712]
    ∧ cexNow.day = 19710
    ∧ ((postponeAllRoute (some 1) (fun _ => false) [cexFern, cexIvy] cexNow).2.map
          (fun q => classifySpec (specNextDueDay q) cexNow.day))
        = [WaterStatus.dueToday, WaterStatus.upcoming] :=
  ⟨rfl, rfl, rfl, rfl⟩

/-- Concrete instantiation of `postponeAllDue_lands_on_yesterday`. -/
theorem postponeAllDue_lands_on_yesterday_witness :
    (cexIvy ∈ [cexFern, cexIvy] ∧ cexIvy.user_id = toString (1 : Int)
      ∧ dueForBulk cexNow cexIvy = true)
    ∧ ({ cexIvy with last_watered_date := yesterdayOf cexNow }
          ∈ (postponeAllRoute (some 1) (fun _ => false) [cexFern, cexIvy] cexNow).2
        ∧ (startOfDay (yesterdayOf cexNow)).day = (startOfDay cexNow).day - 1
        ∧ specNextDueDay { cexIvy with last_watered_date := yesterdayOf cexNow }
            = ((startOfDay cexNow).day - 1) + cexIvy.water_frequency_days
        ∧ ((classifySpec
              (specNextDueDay { cexIvy with last_watered_date := yesterdayOf cexNow })
              cexNow.day = .upcoming
            ∧ specNextDueDay { cexIvy with last_watered_date := yesterdayOf cexNow }
              = cexNow.day + 1)
          ↔ cexIvy.water_frequency_days = 2)) :=
  ⟨⟨by decide, by decide, by decide⟩,
    postponeAllDue_lands_on_yesterday [cexFern, cexIvy] 1 cexNow cexIvy
      (by decide) (by decide) (by decide)⟩

/-- The send attempts one subscription contributes to the sweep. -/
def attemptsFor (addMonths : Instant → Int → Instant) (plants : List Plant)
    (now : Instant) (sub : PushSub) : List (Int × String) :=
  match bodyFor addMonths plants now sub with
  | none => []
  | some body => [(sub.user_id, body)]

/-- The `notificationsSent` entries one subscription contributes. -/
def sentFor (addMonths : Instant → Int → Instant)
    (send : PushSub → String → SendResult) (plants : List Plant) (now : Instant)
    (sub : PushSub) : List String :=
  match bodyFor addMonths plants now sub with
  | none => []
  | some body =>
    match send sub body with
    | .ok => ["User " ++ toString sub.user_id ++ ": " ++ body]
    | .err _ => []

/-- The subscription deletions one subscription contributes. -/
def deletedFor (addMonths : Instant → Int → Instant)
    (send : PushSub → String → SendResult) (plants : List Plant) (now : Instant)
    (sub : PushSub) : List Int :=
  match bodyFor addMonths plants now sub with
  | none => []
  | some body =>
    match send sub body with
    | .ok => []
    | .err code => if code == 410 then [sub.user_id] else []

/-- One loop iteration appends exactly its own contributions to the sweep
state. -/
theorem processSub_state (addMonths : Instant → Int → Instant)
    (send : PushSub → String → SendResult) (plants : List Plant) (now : Instant)
    (st : SweepState) (sub : PushSub) :
    processSub addMonths send plants now st sub
      = ⟨st.sent ++ sentFor addMonths send plants now sub,
         st.attempts ++ attemptsFor addMonths plants now sub,
         st.deleted ++ deletedFor addMonths send plants now sub⟩ := by
  cases st
  simp only [processSub, sentFor, attemptsFor, deletedFor]
  cases hb : bodyFor addMonths plants now sub with
  | none => simp
  | some body =>
    cases hs : send sub body with
    | ok => simp [hs]
    | err code =>
      by_cases hc : (code == 410) = true <;> simp [hs, hc]

/-- Closed form of the sweep loop: the final state is the initial state with
every subscription's contributions appended in order — so no subscription's
outcome influences another's processing. -/
theorem foldl_processSub (addMonths : Instant → Int → Instant)
    (send : PushSub → String → SendResult) (plants : List Plant) (now : Instant)
    (subs : List PushSub) (st : SweepState) :
    subs.foldl (processSub addMonths send plants now) st
      = ⟨st.sent ++ subs.flatMap (sentFor addMonths send plants now),
         st.attempts ++ subs.flatMap (attemptsFor addMonths plants now),
         st.deleted ++ subs.flatMap (deletedFor addMonths send plants now)⟩ := by
  induction subs generalizing st with
  | nil =>
    cases st
    simp
  | cons sub rest ih =>
    rw [List.foldl_cons, processSub_state, ih]
    cases st
    simp [List.flatMap_cons]

/-- The sweep's attempts, in closed form. -/
theorem checkPlants_attempts (addMonths : Instant → Int → Instant)
    (send : PushSub → String → SendResult) (plants : List Plant)
    (subs : List PushSub) (now : Instant) :
    (checkPlants addMonths send plants subs now).attempts
      = subs.flatMap (attemptsFor addMonths plants now) := by
  simp [checkPlants, foldl_processSub]

/-- The sweep's delivery report, in closed form. -/
theorem checkPlants_sent (addMonths : Instant → Int → Instant)
    (send : PushSub → String → SendResult) (plants : List Plant)
    (subs : List PushSub) (now : Instant) :
    (checkPlants addMonths send plants subs now).sent
      = subs.flatMap (sentFor addMonths send plants now) := by
  simp [checkPlants, foldl_processSub]

/-- The sweep's surviving subscription table, in closed form. -/
theorem checkPlants_subsAfter (addMonths : Instant → Int → Instant)
    (send : PushSub → String → SendResult) (plants : List Plant)
    (subs : List PushSub) (now : Instant) :
    (checkPlants addMonths send plants subs now).subsAfter
      = subs.filter (fun s =>
          !((subs.flatMap (deletedFor addMonths send plants now)).contains
            s.user_id)) := by
  simp [checkPlants, foldl_processSub]

/-- The code's water segment equals the spec-side optional segment. -/
theorem segment_eq_water (g : List String) :
    (if g.length > 0 then
      [if g.length == 1 then "Water: " ++ g.headD ""
       else "Water " ++ toString g.length ++ " plants"]
     else [])
      = (specSegment "Water" g).toList := by
  match g with
  | [] => rfl
  | [x] => rfl
  | x :: y :: t =>
    rw [if_pos (by simp), if_neg (by simp)]
    rfl

/-- The code's fertilize segment equals the spec-side optional segment. -/
theorem segment_eq_fertilize (g : List String) :
    (if g.length > 0 then
      [if g.length == 1 then "Fertilize: " ++ g.headD ""
       else "Fertilize " ++ toString g.length ++ " plants"]
     else [])
      = (specSegment "Fertilize" g).toList := by
  match g with
  | [] => rfl
  | [x] => rfl
  | x :: y :: t =>
    rw [if_pos (by simp), if_neg (by simp)]
    rfl

/-- The code's repot segment equals the spec-side optional segment. -/
theorem segment_eq_repot (g : List String) :
    (if g.length > 0 then
      [if g.length == 1 then "Repot: " ++ g.headD ""
       else "Repot " ++ toString g.length ++ " plants"]
     else [])
      = (specSegment "Repot" g).toList := by
  match g with
  | [] => rfl
  | [x] => rfl
  | x :: y :: t =>
    rw [if_pos (by simp), if_neg (by simp)]
    rfl

/-- The code's prune segment equals the spec-side optional segment. -/
theorem segment_eq_prune (g : List String) :
    (if g.length > 0 then
      [if g.length == 1 then "Prune: " ++ g.headD ""
       else "Prune " ++ toString g.length ++ " plants"]
     else [])
      = (specSegment "Prune" g).toList := by
  match g with
  | [] => rfl
  | [x] => rfl
  | x :: y :: t =>
    rw [if_pos (by simp), if_neg (by simp)]
    rfl

/-- Filtering the identity over four options keeps exactly the present ones. -/
theorem filterMap_id_four (a b c d : Option String) :
    [a, b, c, d].filterMap id = a.toList ++ (b.toList ++ (c.toList ++ d.toList)) := by
  cases a <;> cases b <;> cases c <;> cases d <;> rfl

/-- The code's message list equals the spec-side list of surviving segments. -/
theorem buildMessages_eq (c : CareNeeded) :
    buildMessages c
      = [specSegment "Water" c.water, specSegment "Fertilize" c.fertilize,
         specSegment "Repot" c.repot, specSegment "Prune" c.prune].filterMap id := by
  rw [buildMessages, filterMap_id_four, segment_eq_water, segment_eq_fertilize,
    segment_eq_repot, segment_eq_prune, List.append_assoc, List.append_assoc]

/-- The code's per-subscription body coincides with the spec-side
composition. -/
theorem bodyFor_eq_spec (addMonths : Instant → Int → Instant)
    (plants : List Plant) (now : Instant) (sub : PushSub) :
    bodyFor addMonths plants now sub = specBodyOf addMonths plants now sub := by
  rw [bodyFor, specBodyOf, specComposeBody, buildMessages_eq]
  cases h :
      [specSegment "Water" (careNeededFor addMonths now (userPlantsFor plants sub)).water,
       specSegment "Fertilize" (careNeededFor addMonths now (userPlantsFor plants sub)).fertilize,
       specSegment "Repot" (careNeededFor addMonths now (userPlantsFor plants sub)).repot,
       specSegment "Prune" (careNeededFor addMonths now (userPlantsFor plants sub)).prune].filterMap
        id with
  | nil => rfl
  | cons part rest =>
    rw [if_pos (by simp)]

/-- Claim C7: per processed subscription the sweep composes at most one
message, exactly in the spec's format — nothing when all four groups are
empty, otherwise one body made of `"<Verb>: <name>"` / `"<Verb> <N> plants"`
segments joined with the fixed separator (see `specSegment`,
`specComposeBody`). -/
theorem sweep_one_message_per_user (addMonths : Instant → Int → Instant)
    (send : PushSub → String → SendResult) (plants : List Plant)
    (subs : List PushSub) (now : Instant) :
    (checkPlants addMonths send plants subs now).attempts
      = subs.flatMap (fun sub =>
          ((specBodyOf addMonths plants now sub).map
            (fun b => (sub.user_id, b))).toList) := by
  rw [checkPlants_attempts]
  apply congrArg
  funext sub
  rw [attemptsFor, bodyFor_eq_spec]
  cases specBodyOf addMonths plants now sub <;> rfl

/-- A subscription whose attempted delivery the channel rejected with status
410. -/
def isGoneFor (addMonths : Instant → Int → Instant)
    (send : PushSub → String → SendResult) (plants : List Plant) (now : Instant)
    (s : PushSub) : Bool :=
  match bodyFor addMonths plants now s with
  | none => false
  | some body =>
    match send s body with
    | .ok => false
    | .err code => code == 410

/-- A subscription whose attempted delivery resolved. -/
def deliveredFor (addMonths : Instant → Int → Instant)
    (send : PushSub → String → SendResult) (plants : List Plant) (now : Instant)
    (s : PushSub) : Bool :=
  match bodyFor addMonths plants now s with
  | none => false
  | some body =>
    match send s body with
    | .ok => true
    | .err _ => false

/-- Flat-mapping conditional singletons is filtering then mapping. -/
theorem flatMap_ite_singleton {α β : Type} (l : List α) (p : α → Bool)
    (g : α → β) :
    (l.flatMap fun a => if p a then [g a] else []) = (l.filter p).map g := by
  induction l with
  | nil => rfl
  | cons a t ih =>
    by_cases h : p a = true <;> simp [h, ih]

/-- A subscription's deletion contribution, as a conditional singleton. -/
theorem deletedFor_eq (addMonths : Instant → Int → Instant)
    (send : PushSub → String → SendResult) (plants : List Plant) (now : Instant)
    (s : PushSub) :
    deletedFor addMonths send plants now s
      = if isGoneFor addMonths send plants now s then [s.user_id] else [] := by
  rw [deletedFor, isGoneFor]
  cases h : bodyFor addMonths plants now s with
  | none => rfl
  | some body =>
    cases hs : send s body with
    | ok => simp [hs]
    | err code => simp [hs]

/-- A subscription's report contribution, as a conditional singleton. -/
theorem sentFor_eq (addMonths : Instant → Int → Instant)
    (send : PushSub → String → SendResult) (plants : List Plant) (now : Instant)
    (s : PushSub) :
    sentFor addMonths send plants now s
      = if deliveredFor addMonths send plants now s then
          ["User " ++ toString s.user_id ++ ": "
            ++ (bodyFor addMonths plants now s).getD ""]
        else [] := by
  rw [sentFor, deliveredFor]
  cases h : bodyFor addMonths plants now s with
  | none => rfl
  | some body =>
    cases hs : send s body with
    | ok => simp [hs, h]
    | err code => simp [hs]

/-- A subscription's attempt contribution, as a conditional singleton. -/
theorem attemptsFor_eq (addMonths : Instant → Int → Instant)
    (plants : List Plant) (now : Instant) (s : PushSub) :
    attemptsFor addMonths plants now s
      = if (bodyFor addMonths plants now s).isSome then
          [(s.user_id, (bodyFor addMonths plants now s).getD "")]
        else [] := by
  rw [attemptsFor]
  cases h : bodyFor addMonths plants now s with
  | none => rfl
  | some body => simp [h]

/-- Claim C8: in closed form over the whole sweep — the surviving
subscription table drops exactly the users whose delivery failed with the
permanent 410 status, the delivery report lists exactly the resolved sends,
and the attempt log contains exactly one entry per subscription with a
non-empty message, so no subscription's failure alters any other
subscription's processing and nothing is retried within the sweep. -/
theorem sweep_delivery_failures_isolated (addMonths : Instant → Int → Instant)
    (send : PushSub → String → SendResult) (plants : List Plant)
    (subs : List PushSub) (now : Instant) :
    (checkPlants addMonths send plants subs now).subsAfter
      = subs.filter (fun s =>
          !(((subs.filter (isGoneFor addMonths send plants now)).map
              (fun t => t.user_id)).contains s.user_id))
    ∧ (checkPlants addMonths send plants subs now).sent
      = (subs.filter (deliveredFor addMonths send plants now)).map
          (fun s => "User " ++ toString s.user_id ++ ": "
            ++ (bodyFor addMonths plants now s).getD "")
    ∧ (checkPlants addMonths send plants subs now).attempts
      = (subs.filter (fun s => (bodyFor addMonths plants now s).isSome)).map
          (fun s => (s.user_id, (bodyFor addMonths plants now s).getD "")) := by
  have hd : subs.flatMap (deletedFor addMonths send plants now)
      = (subs.filter (isGoneFor addMonths send plants now)).map
          (fun t => t.user_id) := by
    rw [← flatMap_ite_singleton]
    exact congrArg _ (funext (deletedFor_eq addMonths send plants now))
  refine ⟨?_, ?_, ?_⟩
  · rw [checkPlants_subsAfter, hd]
  · rw [checkPlants_sent, ← flatMap_ite_singleton]
    exact congrArg _ (funext (sentFor_eq addMonths send plants now))
  · rw [checkPlants_attempts, ← flatMap_ite_singleton]
    exact congrArg _ (funext (attemptsFor_eq addMonths plants now))

/-- Flat-mapping the values of an optional function is filter-mapping it. -/
theorem flatMap_toList_eq_filterMap {α β : Type} (l : List α)
    (f : α → Option β) :
    (l.flatMap fun a => (f a).toList) = l.filterMap f := by
  induction l with
  | nil => rfl
  | cons a t ih => cases h : f a <;> simp [h, ih]

/-- The canonical ordered composition agrees with the per-group one. -/
theorem spec_ordered_eq_compose (c : CareNeeded) :
    specOrderedBody c = specComposeBody c := by
  rw [specOrderedBody, specComposeBody]
  cases hl :
      [specSegment "Water" c.water, specSegment "Fertilize" c.fertilize,
       specSegment "Repot" c.repot, specSegment "Prune" c.prune].filterMap id with
  | nil =>
    rw [show
      ([("Water", c.water), ("Fertilize", c.fertilize), ("Repot", c.repot),
        ("Prune", c.prune)].filterMap (fun vg => specSegment vg.1 vg.2)) = [] from hl]
    rfl
  | cons a t =>
    rw [show
      ([("Water", c.water), ("Fertilize", c.fertilize), ("Repot", c.repot),
        ("Prune", c.prune)].filterMap (fun vg => specSegment vg.1 vg.2)) = a :: t from hl]
    rw [if_neg (by simp)]

/-- Claim C10: the bodies the sweep attempts to deliver are exactly the
deterministic canonical composition of each subscription's groups — the four
groups in the fixed order water, fertilize, repot, prune, joined with the
separator " | " — so two sweeps over the same loaded data compose identical
bodies. -/
theorem sweep_body_deterministic_ordered (addMonths : Instant → Int → Instant)
    (send : PushSub → String → SendResult) (plants : List Plant)
    (subs : List PushSub) (now : Instant) :
    (checkPlants addMonths send plants subs now).attempts.map Prod.snd
      = subs.filterMap (fun sub =>
          specOrderedBody (careNeededFor addMonths now (userPlantsFor plants sub))) := by
  have step : ∀ sub, (attemptsFor addMonths plants now sub).map Prod.snd
      = (specOrderedBody (careNeededFor addMonths now (userPlantsFor plants sub))).toList := by
    intro sub
    rw [attemptsFor, spec_ordered_eq_compose]
    rw [show specComposeBody (careNeededFor addMonths now (userPlantsFor plants sub))
        = specBodyOf addMonths plants now sub from rfl]
    rw [← bodyFor_eq_spec]
    cases bodyFor addMonths plants now sub <;> rfl
  rw [checkPlants_attempts, List.map_flatMap,
    congrArg subs.flatMap (funext step), flatMap_toList_eq_filterMap]

/-- Claim C9: a non-watering care track with only one of its frequency and
last-date present is inert — its due check is false, so appending such a
plant to the loaded data never changes the corresponding needs-attention
group, whatever `today` is.  The hypothesis covers in particular the claim's
exactly-one-present case. -/
theorem inert_track_never_contributes (addMonths : Instant → Int → Instant)
    (now : Instant) (p : Plant) (plants : List Plant) (sub : PushSub) :
    ((p.fertilize_frequency_days = none ∨ p.last_fertilized_date = none) →
      fertilizeDue now p = false
      ∧ (careNeededFor addMonths now (userPlantsFor (plants ++ [p]) sub)).fertilize
          = (careNeededFor addMonths now (userPlantsFor plants sub)).fertilize)
    ∧ ((p.repot_frequency_months = none ∨ p.last_repotted_date = none) →
      repotDue addMonths now p = false
      ∧ (careNeededFor addMonths now (userPlantsFor (plants ++ [p]) sub)).repot
          = (careNeededFor addMonths now (userPlantsFor plants sub)).repot)
    ∧ ((p.prune_frequency_months = none ∨ p.last_pruned_date = none) →
      pruneDue addMonths now p = false
      ∧ (careNeededFor addMonths now (userPlantsFor (plants ++ [p]) sub)).prune
          = (careNeededFor addMonths now (userPlantsFor plants sub)).prune) := by
  refine ⟨?_, ?_, ?_⟩
  · intro h
    have hdue : fertilizeDue now p = false := by
      rcases h with h | h <;> simp [fertilizeDue, h]
    refine ⟨hdue, ?_⟩
    simp only [careNeededFor, userPlantsFor, List.filter_append]
    by_cases hm : (p.user_id == toString sub.user_id) = true <;>
      simp [hm, hdue, List.filter_cons]
  · intro h
    have hdue : repotDue addMonths now p = false := by
      rcases h with h | h <;> simp [repotDue, h]
    refine ⟨hdue, ?_⟩
    simp only [careNeededFor, userPlantsFor, List.filter_append]
    by_cases hm : (p.user_id == toString sub.user_id) = true <;>
      simp [hm, hdue, List.filter_cons]
  · intro h
    have hdue : pruneDue addMonths now p = false := by
      rcases h with h | h <;> simp [pruneDue, h]
    refine ⟨hdue, ?_⟩
    simp only [careNeededFor, userPlantsFor, List.filter_append]
    by_cases hm : (p.user_id == toString sub.user_id) = true <;>
      simp [hm, hdue, List.filter_cons]

/-- A plant whose three non-watering tracks each have exactly one field
present. -/
def inertPlant : Plant :=
  { id := 9
    user_id := "1"
    name := "Palm"
    location := "Hall"
    photo_url := "palm.jpg"
    water_frequency_days := 7
    last_watered_date := ⟨19700, 0⟩
    fertilize_frequency_days := some 30
    last_fertilized_date := none
    repot_frequency_months := some 12
    last_repotted_date := none
    prune_frequency_months := none
    last_pruned_date := some ⟨19600, 0⟩ }

/-- The subscription of the inert-track witness. -/
def inertSub : PushSub :=
  { user_id := 1
    endpoint := "endpoint-1"
    p256dh := "key"
    auth := "secret" }

/-- A concrete stand-in for the calendar collaborator's month addition. -/
def simpleAddMonths : Instant → Int → Instant := fun t n => ⟨t.day + 30 * n, t.ms⟩

/-- Concrete instantiation of `inert_track_never_contributes`, one track per
shape of the exactly-one-present hypothesis. -/
theorem inert_track_never_contributes_witness :
    ((inertPlant.fertilize_frequency_days = none
        ∨ inertPlant.last_fertilized_date = none)
      ∧ (fertilizeDue cexNow inertPlant = false
        ∧ (careNeededFor simpleAddMonths cexNow
              (userPlantsFor ([] ++ [inertPlant]) inertSub)).fertilize
            = (careNeededFor simpleAddMonths cexNow
                (userPlantsFor [] inertSub)).fertilize))
    ∧ ((inertPlant.repot_frequency_months = none
        ∨ inertPlant.last_repotted_date = none)
      ∧ (repotDue simpleAddMonths cexNow inertPlant = false
        ∧ (careNeededFor simpleAddMonths cexNow
              (userPlantsFor ([] ++ [inertPlant]) inertSub)).repot
            = (careNeededFor simpleAddMonths cexNow
                (userPlantsFor [] inertSub)).repot))
    ∧ ((inertPlant.prune_frequency_months = none
        ∨ inertPlant.last_pruned_date = none)
      ∧ (pruneDue simpleAddMonths cexNow inertPlant = false
        ∧ (careNeededFor simpleAddMonths cexNow
              (userPlantsFor ([] ++ [inertPlant]) inertSub)).prune
            = (careNeededFor simpleAddMonths cexNow
                (userPlantsFor [] inertSub)).prune)) :=
  ⟨⟨Or.inr rfl,
    (inert_track_never_contributes simpleAddMonths cexNow inertPlant [] inertSub).1
      (Or.inr rfl)⟩,
   ⟨Or.inr rfl,
    (inert_track_never_contributes simpleAddMonths cexNow inertPlant [] inertSub).2.1
      (Or.inr rfl)⟩,
   ⟨Or.inl rfl,
    (inert_track_never_contributes simpleAddMonths cexNow inertPlant [] inertSub).2.2
      (Or.inl rfl)⟩⟩

end GreenThumb
